import Mathlib

/-! Verification of the page-processing core of the Huspam/Web-Crawler repository
(`crawler.py`), as a shallow embedding in Lean 4.

Python strings are modelled as Lean `String` / `List Char`; Python dicts with
counts are modelled as total functions with 0 for "absent"; the external
collaborators (lxml parsing, `urljoin`, `urlparse`, the frontier's seen set,
the stopword file) are parameters of the embedded operations.  Fallible
external calls return `Except`.
-/

namespace Crawler

/-- Embeds Python `str.split(sep)` for a one-character separator:
`"".split(c) == ['']`, empty pieces are kept. -/
def splitOnChar (sep : Char) : List Char → List (List Char)
  | [] => [[]]
  | c :: rest =>
    match splitOnChar sep rest with
    | [] => [[]]
    | g :: gs => if c = sep then [] :: g :: gs else (c :: g) :: gs

/-- Embeds Python `'/'.join(parts)`. -/
def joinSlash : List String → String
  | [] => ""
  | [x] => x
  | x :: y :: xs => x ++ "/" ++ joinSlash (y :: xs)

/-- Embeds Python `list.index(x)` (first index of `x`; callers guard membership,
so the value on a list not containing `x` is irrelevant). -/
def pyIndex (x : String) : List String → Nat
  | [] => 0
  | y :: ys => if y = x then 0 else 1 + pyIndex x ys

/-- Embeds Python substring containment `needle in hay` on strings
(as `List Char`). -/
def containsSub (hay needle : List Char) : Bool :=
  needle.isPrefixOf hay ||
    match hay with
    | [] => false
    | _ :: t => containsSub t needle

/-- Embeds Python `str.lower()` (all the strings it is applied to in the
crawler are ASCII, where `Char.toLower` agrees with Python). -/
def pyLower (s : String) : String := String.mk (s.data.map Char.toLower)

/-- Embeds Python `hay.endswith(suffix)`. -/
def pyEndsWith (hay suffix : String) : Bool := suffix.data.isSuffixOf hay.data

/-- A character passes the crawler's token-character test
`c.isascii() and c.isalnum()`; on the ASCII range Python's `isalnum`
is exactly `[0-9A-Za-z]`, which is Lean's `Char.isAlphanum`. -/
def isTokenChar (c : Char) : Bool := c.toNat < 128 && c.isAlphanum

/-- One step of `Crawler._tokenize`'s `while fast < len(content)` loop
(crawler.py lines 119-132), run on fuel; each iteration of the Python loop
either advances `fast` or is immediately followed by one that does, so
`2*len+1` fuel runs the loop to completion. -/
def tokenizeGo (content : List Char) : Nat → Nat → Nat → List String → List String
  | 0, _, _, retlist => retlist
  | fuel + 1, slow, fast, retlist =>
    if fast < content.length then
      if !isTokenChar (content.getD slow ' ') then
        tokenizeGo content fuel (slow + 1) (fast + 1) retlist
      else if !isTokenChar (content.getD fast ' ') then
        tokenizeGo content fuel fast fast
          (retlist ++ [String.mk (((content.drop slow).take (fast - slow)).map Char.toLower)])
      else
        tokenizeGo content fuel slow (fast + 1) retlist
    else retlist

/-- Embeds `Crawler._tokenize` (crawler.py lines 119-132): the two-cursor
scan over the text, with `''.join(content[slow:fast]).lower()` appended at
each alnum-run boundary. -/
def pyTokenize (content : String) : List String :=
  tokenizeGo content.data (2 * content.data.length + 1) 0 0 []

/-- The result of Python's `urlparse` on a URL string, as consumed by
`is_valid` / `is_trap` (`urlparse` itself is the standard library, external to
the repository).  `hostname` is `none` when the URL has no host
(`parsed.hostname is None` in Python), in which case the `in` test in
`is_valid` raises `TypeError`. -/
structure Parsed where
  scheme : String
  netloc : String
  hostname : Option String
  path : String
  params : String
  query : String
  fragment : String
deriving DecidableEq, Repr

/-- The error kinds the embedded code distinguishes: `ValueError`
(e.g. `urlparse` on an invalid IPv6 bracket URL) and `TypeError`
(substring test against a `None` hostname). -/
inductive PyErr | valueError | typeError
deriving DecidableEq, Repr

/-- The crawl-wide aggregate state owned by the `Crawler` object
(crawler.py lines 17-22).  Count dicts are modelled as total functions,
`0` meaning "key absent". -/
structure CrawlerState where
  subdomains : String → Nat
  max_out_links : Option String × Int
  longest_page : Option String × Int
  freq_words : String → Nat
  traps : List String
  downloaded : List String

/-- Embeds `path.split('/')[1:]` as used by `is_repeat` and `depth_long`
(crawler.py lines 203, 214): empty pieces are kept, only the piece before
the first slash is dropped. -/
def pathParts (path : String) : List String :=
  ((splitOnChar '/' path.data).map (fun l => String.mk l)).drop 1

/-- Embeds `Crawler.is_repeat` (crawler.py lines 199-209).  `seen` is the
frontier's `urls_set` membership test. -/
def is_repeat (seen : String → Bool) (parsed : Parsed) : Bool :=
  let parts := pathParts parsed.path
  if parts.length ≥ 3 && (parts.take (parts.length - 2)).contains (parts.getD (parts.length - 2) "") then
    let index := pyIndex (parts.getD (parts.length - 2) "") (parts.take (parts.length - 2))
    let concat_url := parsed.scheme ++ "://" ++ parsed.netloc ++ "/" ++
      joinSlash (parts.take index) ++ joinSlash (parts.drop (parts.length - 2))
    seen concat_url
  else false

/-- Embeds `Crawler.depth_long` (crawler.py lines 212-215). -/
def depth_long (parsed : Parsed) : Bool :=
  (pathParts parsed.path).length > 5

/-- Embeds `Crawler.length_long` (crawler.py lines 218-220). -/
def length_long (parsed : Parsed) : Bool :=
  (parsed.path ++ parsed.params ++ parsed.query ++ parsed.fragment).length > 60

/-- Embeds `Crawler.contains_fragment` (crawler.py lines 223-225): the Python
function returns the fragment string, used for its truthiness (non-empty). -/
def contains_fragment (parsed : Parsed) : Bool :=
  parsed.fragment ≠ ""

/-- The disjunction tested by `Crawler.is_trap` (crawler.py line 193). -/
def trap_flag (seen : String → Bool) (parsed : Parsed) : Bool :=
  is_repeat seen parsed || depth_long parsed || length_long parsed ||
    contains_fragment parsed

/-- Embeds `Crawler.is_trap` (crawler.py lines 192-196): when any heuristic
fires, the url is appended to `self.traps` and `True` is returned. -/
def is_trap (seen : String → Bool) (st : CrawlerState) (url : String)
    (parsed : Parsed) : CrawlerState × Bool :=
  if trap_flag seen parsed then
    ({ st with traps := st.traps ++ [url] }, true)
  else (st, false)

/-- The extension denylist of `is_valid`'s regular expression
`.*\.(css|js|...)$` (crawler.py lines 180-184); `jpe?g` contributes both
`jpeg` and `jpg`, `tiff?` both `tiff` and `tif`. -/
def badExts : List String :=
  ["css", "js", "bmp", "gif", "jpeg", "jpg", "ico", "png", "tiff", "tif",
   "mid", "mp2", "mp3", "mp4", "wav", "avi", "mov", "mpeg", "ram", "m4v",
   "mkv", "ogg", "ogv", "pdf", "ps", "eps", "tex", "ppt", "pptx", "doc",
   "docx", "xls", "xlsx", "names", "data", "dat", "exe", "bz2", "tar",
   "msi", "bin", "7z", "psd", "dmg", "iso", "epub", "dll", "cnf", "tgz",
   "sha1", "thmx", "mso", "arff", "rtf", "jar", "csv", "rm", "smil",
   "wmv", "swf", "wma", "zip", "rar", "gz"]

/-- Whether `re.match(".*\.(…)$", parsed.path.lower())` succeeds: the
lower-cased path ends in a dot followed by a denylisted extension. -/
def hasBadExt (path : String) : Bool :=
  badExts.any (fun e => pyEndsWith (pyLower path) ("." ++ e))

/-- Embeds `Crawler.is_valid` (crawler.py lines 169-189).  The input is the
result of `urlparse(url)` — `urlparse` sits on line 175, OUTSIDE the
`try/except TypeError` block, so a parse error propagates (`Except.error`).
Inside the `try`, a `None` hostname makes the Python `in` test raise
`TypeError`, which is caught and returns `False`; the short-circuit `and`
reaches `is_trap` (and hence may append to `self.traps`) only when the
scheme, host-scope and extension tests all pass. -/
def is_valid (seen : String → Bool) (st : CrawlerState) (url : String)
    (pr : Except PyErr Parsed) : CrawlerState × Except PyErr Bool :=
  match pr with
  | .error e => (st, .error e)
  | .ok parsed =>
    if !(parsed.scheme == "http" || parsed.scheme == "https") then (st, .ok false)
    else
      match parsed.hostname with
      | none => (st, .ok false)
      | some h =>
        if containsSub h.data ".ics.uci.edu".data then
          if hasBadExt parsed.path then (st, .ok false)
          else
            let (st', flagged) := is_trap seen st url parsed
            (st', .ok (!flagged))
        else (st, .ok false)

/-- Holds exactly when an `is_valid` call reaches the `is_trap` conjunct and
the trap detector fires (so the url gets appended to `self.traps`). -/
def valid_trap_hit (seen : String → Bool) (pr : Except PyErr Parsed) : Bool :=
  match pr with
  | .error _ => false
  | .ok parsed =>
    (parsed.scheme == "http" || parsed.scheme == "https") &&
      (match parsed.hostname with
       | none => false
       | some h => containsSub h.data ".ics.uci.edu".data) &&
      !hasBadExt parsed.path && trap_flag seen parsed

/-- The strict-improvement update applied to `self.max_out_links` and
`self.longest_page` (crawler.py lines 101-102 and 110-111):
`if metric > record[1]: record = (url, metric)`. -/
def updateExtremal (rec : Option String × Int) (url : String) (metric : Int) :
    Option String × Int :=
  if metric > rec.2 then (some url, metric) else rec

/-- Folding `updateExtremal` over a sequence of `(url, metric)` pages. -/
def runExtremal (rec : Option String × Int) (pages : List (String × Int)) :
    Option String × Int :=
  pages.foldl (fun r p => updateExtremal r p.1 p.2) rec

/-- Embeds the `self.subdomains` dict update (crawler.py lines 94-98):
initialize at 1 when absent, else increment. -/
def bumpSubdomain (f : String → Nat) (domain : String) : String → Nat :=
  fun x => if x = domain then f x + 1 else f x

/-- Embeds `Crawler._compute_word_frequencies` (crawler.py lines 135-141):
each token not in the stopword set bumps its count (1 when absent). -/
def compute_word_frequencies (stopwords : String → Bool) (tokens : List String)
    (freq_words : String → Nat) : String → Nat :=
  tokens.foldl
    (fun f token =>
      if stopwords token then f
      else fun w => if w = token then f w + 1 else f w)
    freq_words

/-- The empty `self.freq_words` dict. -/
def emptyFreq : String → Nat := fun _ => 0

/-- The parse failures `extract_next_links` catches around `html.fromstring`
(crawler.py lines 74-81): `UnicodeDecodeError` (undecodable bytes) and
`etree.ParserError` (malformed or empty markup). -/
inductive ParseErr | unicodeDecodeError | parserError
deriving DecidableEq, Repr

/-- The part of an lxml DOM tree that `extract_next_links` consumes:
`tree.xpath('//a/@href')` and `tree.text_content()`. -/
structure Tree where
  hrefs : List String
  text : String

/-- The external collaborators of `extract_next_links`: lxml's
`html.fromstring` (which may fail), `urljoin` (which may raise `ValueError`),
`urlparse(url).netloc`, and the stopword set loaded from `stopwords.txt`. -/
structure Ctx where
  parse : String → Except ParseErr Tree
  urljoin : String → String → Except Unit String
  netloc : String → String
  stopwords : String → Bool

/-- The `url_data` dict handed to `extract_next_links` by the corpus
(`content` stands for the byte/str content after `_encode_content`, which
only re-encodes and is absorbed into the `parse` collaborator). -/
structure UrlData where
  url : String
  final_url : Option String
  content : String

/-- Embeds `Crawler.extract_next_links` (crawler.py lines 58-116): on a
caught parse failure, return `[]` before touching any aggregate; otherwise
resolve each href against the base url (`final_url` when truthy, i.e. present
and non-empty, else `url`), skipping individual `ValueError`s, then update
the subdomain count, the two extremal records (strict `>`), the audit
(`downloaded`) log and the word-frequency table. -/
def extract_next_links (ctx : Ctx) (st : CrawlerState) (ud : UrlData) :
    CrawlerState × List String :=
  match ctx.parse ud.content with
  | .error _ => (st, [])
  | .ok tree =>
    let base_url := match ud.final_url with
      | some f => if f ≠ "" then f else ud.url
      | none => ud.url
    let output_links := tree.hrefs.foldl
      (fun acc link =>
        match ctx.urljoin base_url link with
        | .ok u => acc ++ [u]
        | .error _ => acc) []
    let domain := ctx.netloc ud.url
    let st1 := { st with subdomains := bumpSubdomain st.subdomains domain }
    let st2 := { st1 with
      max_out_links := updateExtremal st1.max_out_links ud.url (output_links.length : Int) }
    let st3 := { st2 with downloaded := st2.downloaded ++ output_links }
    let words := pyTokenize tree.text
    let st4 := { st3 with
      longest_page := updateExtremal st3.longest_page ud.url (words.length : Int) }
    let st5 := { st4 with
      freq_words := compute_word_frequencies ctx.stopwords words st4.freq_words }
    (st5, output_links)

/-! Spec-side definitions.

The following definitions follow the spec's words (not the code); they exist
only to be compared with the code-derived definitions above. -/

/-- Spec-side: "split the path into non-empty segments". -/
def specSegments (path : String) : List String :=
  ((splitOnChar '/' path.data).map (fun l => String.mk l)).filter (fun s => s ≠ "")

/-- Spec-side guard of the repeat-cycle rule: the non-empty segments number at
least three and the second-to-last of them (the one "excluding the final one"
that can "reoccur earlier") occurs among the segments preceding the last
two. -/
def spec_repeat_guard (parsed : Parsed) : Bool :=
  let segs := specSegments parsed.path
  segs.length ≥ 3 &&
    (segs.take (segs.length - 2)).contains (segs.getD (segs.length - 2) "")

/-- Spec-side constructed URL of the repeat-cycle rule: "the URL formed by
truncating the path up to (and including) the first occurrence, appended with
the final two segments" — i.e. the path whose segments are those up to and
including the first occurrence followed by the last two, joined by `/`. -/
def spec_repeat_url (parsed : Parsed) : String :=
  let segs := specSegments parsed.path
  let index := pyIndex (segs.getD (segs.length - 2) "") (segs.take (segs.length - 2))
  parsed.scheme ++ "://" ++ parsed.netloc ++ "/" ++
    joinSlash (segs.take (index + 1) ++ segs.drop (segs.length - 2))

/-- Spec-side scope test: the host equals the allow-listed domain or is a
sub-domain of it (suffix match). -/
def inScopeSuffix (h : String) : Bool :=
  h == "ics.uci.edu" || pyEndsWith h ".ics.uci.edu"

/-- The URL the code actually constructs in `is_repeat` (crawler.py line 206):
note `parts[:index]` stops strictly BEFORE the first occurrence, and the two
`'/'.join` results are concatenated with no separator between them. -/
def code_repeat_url (parsed : Parsed) : String :=
  let parts := pathParts parsed.path
  let index := pyIndex (parts.getD (parts.length - 2) "") (parts.take (parts.length - 2))
  parsed.scheme ++ "://" ++ parsed.netloc ++ "/" ++
    joinSlash (parts.take index) ++ joinSlash (parts.drop (parts.length - 2))

/-! Concrete inputs used by witnesses and counterexamples. -/

/-- The aggregate state right after `Crawler.__init__` (crawler.py
lines 17-22). -/
def initState : CrawlerState :=
  ⟨fun _ => 0, (none, -1), (none, -1), fun _ => 0, [], []⟩

/-- A frontier whose seen-URL set is empty. -/
def seenNone : String → Bool := fun _ => false

/-- Result of `urlparse("http://n/x/a/b/a/d")`: the second-to-last segment `a` repeats
at an interior, non-initial position. -/
def parsedRep : Parsed := ⟨"http", "n", some "n", "/x/a/b/a/d", "", "", ""⟩

/-- A frontier that has seen exactly the spec-constructed repeat URL for
`parsedRep` (truncation including the first occurrence, `/`-separated). -/
def seenSpecRep : String → Bool := fun s => s == "http://n/x/a/a/d"

/-- A frontier that has seen exactly the code-constructed repeat URL for
`parsedRep` (truncation excluding the first occurrence, joins concatenated
without a separator). -/
def seenCodeRep : String → Bool := fun s => s == "http://n/xa/d"

/-- Result of `urlparse("https://x.ics.uci.edu.evil.com/p")`: the host is not a
sub-domain of `ics.uci.edu` but contains `".ics.uci.edu"` as a substring. -/
def parsedEvil : Parsed :=
  ⟨"https", "x.ics.uci.edu.evil.com", some "x.ics.uci.edu.evil.com", "/p", "", "", ""⟩

/-- Result of `urlparse("https://www.ics.uci.edu/p")`: a genuinely in-scope host. -/
def parsedGood : Parsed :=
  ⟨"https", "www.ics.uci.edu", some "www.ics.uci.edu", "/p", "", "", ""⟩

/-- A parsed URL with no host, e.g. `urlparse("http:///p")` — its `hostname`
is `None`, so the scope test raises `TypeError` in Python. -/
def parsedNoHost : Parsed := ⟨"http", "", none, "/p", "", "", ""⟩

/-- A parsed URL whose path alone is 61 characters while params, query and
fragment are all empty. -/
def parsedLongPath : Parsed :=
  ⟨"http", "n", some "n", String.mk ('/' :: List.replicate 60 'a'), "", "", ""⟩

/-- A context whose parse step fails with `etree.ParserError` (malformed or
empty markup). -/
def failParseCtx : Ctx :=
  ⟨fun _ => .error .parserError, fun _ link => .ok link, fun _ => "host", fun _ => false⟩

/-- A context whose parse step fails with `UnicodeDecodeError` (undecodable
byte stream). -/
def failDecodeCtx : Ctx :=
  ⟨fun _ => .error .unicodeDecodeError, fun _ link => .ok link, fun _ => "host", fun _ => false⟩

/-- One `url_data` record for a fetched page. -/
def udExample : UrlData := ⟨"http://a.ics.uci.edu/p", none, "<html>"⟩

/-- Another `url_data` record, for a page that arrived after a redirect. -/
def udRedirect : UrlData := ⟨"http://b.ics.uci.edu/q", some "http://c.ics.uci.edu/r", "<body>"⟩

/-- A stopword test set containing exactly the word `the`. -/
def stopThe : String → Bool := fun w => w == "the"

end Crawler

namespace Crawler

/-- C1: the claim says `_tokenize` emits exactly the maximal ASCII-alphanumeric
runs, so that an input with no separators yields one token and
`"abc123 DEF!!ghi"` yields `["abc123", "def", "ghi"]`.  The code does not:
its two-cursor loop never flushes a run still open when `fast` reaches the end
of the text, so a trailing run is silently dropped — `"abc123 DEF!!ghi"`
tokenizes to `["abc123", "def"]` and the separator-free `"abc"` to `[]`.
This theorem evaluates the embedded code at those failing inputs. -/
theorem tokenize_drops_trailing_run :
    pyTokenize "abc123 DEF!!ghi" = ["abc123", "def"] ∧
    pyTokenize "abc" = [] ∧ pyTokenize "" = [] :=
  ⟨rfl, rfl, rfl⟩

/-- C2 (counterexample): for `http://n/x/a/b/a/d` the spec-side repeat rule —
truncate the path up to and including the first occurrence of the repeating
segment, then append the final two segments — constructs `http://n/x/a/a/d`,
and with a frontier that has seen exactly that URL the claim says the URL is
flagged; the code constructs `http://n/xa/d` instead (truncation excludes the
first occurrence and the two joined pieces are concatenated with no
separator), so `is_repeat` returns `false`. -/
theorem repeat_claim_fails_on_concat :
    spec_repeat_guard parsedRep = true ∧
    spec_repeat_url parsedRep = "http://n/x/a/a/d" ∧
    seenSpecRep (spec_repeat_url parsedRep) = true ∧
    is_repeat seenSpecRep parsedRep = false :=
  ⟨rfl, rfl, rfl, rfl⟩

/-- C2 (amended): `is_repeat` flags a URL exactly when the path pieces
obtained by splitting on `/` and dropping the first piece (empty pieces kept)
number at least three, their second-to-last piece occurs among the pieces
before the last two, and the URL the code constructs —
`scheme://netloc/` + the pieces strictly before the first occurrence joined
by `/`, directly concatenated (no separator) with the last two pieces joined
by `/` — is in the frontier's seen-URL set. -/
theorem is_repeat_characterization (seen : String → Bool) (parsed : Parsed) :
    is_repeat seen parsed = true ↔
      ((pathParts parsed.path).length ≥ 3 ∧
        (pathParts parsed.path).getD ((pathParts parsed.path).length - 2) "" ∈
          (pathParts parsed.path).take ((pathParts parsed.path).length - 2) ∧
        seen (code_repeat_url parsed) = true) := by
  unfold is_repeat code_repeat_url
  by_cases h3 : (pathParts parsed.path).length ≥ 3
  · by_cases hm : (pathParts parsed.path).getD ((pathParts parsed.path).length - 2) "" ∈
        (pathParts parsed.path).take ((pathParts parsed.path).length - 2)
    · simp [h3, hm, List.contains, List.elem_eq_mem]
    · simp [h3, hm, List.contains, List.elem_eq_mem]
  · simp [h3]

/-- C2 (witness for the amended theorem): on `http://n/x/a/b/a/d` with a
frontier that has seen the code-constructed URL `http://n/xa/d`, `is_repeat`
flags the URL. -/
theorem is_repeat_characterization_witness :
    is_repeat seenCodeRep parsedRep = true :=
  (is_repeat_characterization seenCodeRep parsedRep).mpr
    ⟨by decide, by decide, by decide⟩

end Crawler

namespace Crawler

/-- C3 (counterexample): the claim says every URL accepted by `is_valid` has a
host inside the crawl scope by SUFFIX match, and any host that is not a
sub-domain of the allow-listed domain is rejected.  The code instead tests
Python substring containment `".ics.uci.edu" in parsed.hostname`, so the
out-of-scope host `x.ics.uci.edu.evil.com` — which merely contains
`".ics.uci.edu"` in the middle — is accepted. -/
theorem valid_accepts_non_subdomain :
    (is_valid seenNone initState "https://x.ics.uci.edu.evil.com/p"
        (.ok parsedEvil)).2 = Except.ok true ∧
    inScopeSuffix "x.ics.uci.edu.evil.com" = false :=
  ⟨rfl, rfl⟩

/-- C3 (amended): every URL accepted by `is_valid` has a hostname of which the
allow-listed marker `".ics.uci.edu"` is a substring (Python `in`), not
necessarily a suffix; URLs whose hostname does not contain that substring
(including a missing hostname) are rejected. -/
theorem is_valid_accept_scope (seen : String → Bool) (st : CrawlerState)
    (url : String) (parsed : Parsed)
    (hacc : (is_valid seen st url (.ok parsed)).2 = Except.ok true) :
    ∃ h, parsed.hostname = some h ∧
      containsSub h.data ".ics.uci.edu".data = true := by
  simp only [is_valid] at hacc
  split at hacc
  · exact absurd hacc (by simp)
  · split at hacc
    · exact absurd hacc (by simp)
    · rename_i h hh
      split at hacc
      · rename_i hc
        exact ⟨h, hh, hc⟩
      · exact absurd hacc (by simp)

/-- C3 (witness): the in-scope URL `https://www.ics.uci.edu/p` is accepted,
and the amended theorem yields its hostname together with the substring
fact. -/
theorem is_valid_accept_scope_witness :
    ∃ h, parsedGood.hostname = some h ∧
      containsSub h.data ".ics.uci.edu".data = true :=
  is_valid_accept_scope seenNone initState "https://www.ics.uci.edu/p"
    parsedGood rfl

/-- C4 (counterexample): the claim says `length_long` flags a URL exactly when
the combined length of path parameters, query and fragment exceeds 60; the
code also counts `parsed.path`, so a URL whose 61-character path carries empty
params, query and fragment is flagged although the claim's combined length
is 0. -/
theorem length_long_counts_path :
    length_long parsedLongPath = true ∧
    ((parsedLongPath.params ++ parsedLongPath.query ++
        parsedLongPath.fragment).length > 60) = False := by
  constructor
  · decide
  · simp [parsedLongPath]

/-- C4 (amended): `length_long` flags a URL exactly when the combined length
of its path, path parameters, query string and fragment exceeds 60
characters. -/
theorem length_long_characterization (parsed : Parsed) :
    length_long parsed = true ↔
      parsed.path.length + parsed.params.length + parsed.query.length +
        parsed.fragment.length > 60 := by
  unfold length_long
  simp [String.length_append]

/-- C4 (witness): the amended theorem evaluated on the 61-character-path
URL. -/
theorem length_long_characterization_witness :
    length_long parsedLongPath = true :=
  (length_long_characterization parsedLongPath).mpr (by decide)

end Crawler

namespace Crawler

/-- C5: both extremal records (`max_out_links`, `longest_page`) use the
strict-improvement update of crawler.py lines 101-102 / 110-111: a metric
that does not strictly exceed the incumbent's leaves the record untouched,
and over a sequence of pages two consecutive pages of equal metric leave the
first of them as the record holder. -/
theorem extremal_strict_improvement :
    (∀ (rec : Option String × Int) (url : String) (metric : Int),
        metric ≤ rec.2 → updateExtremal rec url metric = rec) ∧
    (∀ (rec : Option String × Int) (u1 u2 : String) (m : Int),
        rec.2 < m → runExtremal rec [(u1, m), (u2, m)] = (some u1, m)) := by
  constructor
  · intro rec url metric hle
    unfold updateExtremal
    rw [if_neg (by omega)]
  · intro rec u1 u2 m hlt
    show updateExtremal (updateExtremal rec u1 m) u2 m = (some u1, m)
    rw [show updateExtremal rec u1 m = (some u1, m) from by
      unfold updateExtremal; rw [if_pos hlt]]
    unfold updateExtremal
    rw [if_neg (by simp)]

/-- C5 (witness): with the incumbent `("a", 3)`, offering metric `3` keeps the
record, and from the initial record `(None, -1)` two pages of equal metric `2`
leave the first as the holder. -/
theorem extremal_strict_improvement_witness :
    updateExtremal (some "a", 3) "b" 3 = (some "a", 3) ∧
    runExtremal (none, -1) [("u", 2), ("v", 2)] = (some "u", 2) :=
  ⟨extremal_strict_improvement.1 (some "a", 3) "b" 3 (by decide),
   extremal_strict_improvement.2 (none, -1) "u" "v" 2 (by decide)⟩

/-- The count-characterization of `_compute_word_frequencies`: each token's
final count is its initial count plus its number of occurrences in the token
list, except that stopwords are left untouched. -/
theorem compute_word_frequencies_count (stop : String → Bool)
    (tokens : List String) :
    ∀ (freq : String → Nat) (t : String),
      compute_word_frequencies stop tokens freq t =
        freq t + (if stop t then 0 else List.count t tokens) := by
  induction tokens with
  | nil =>
    intro freq t
    cases hs : stop t <;> simp [compute_word_frequencies, hs]
  | cons tok toks ih =>
    intro freq t
    have hstep : compute_word_frequencies stop (tok :: toks) freq =
        compute_word_frequencies stop toks
          (if stop tok then freq
           else fun w => if w = tok then freq w + 1 else freq w) := rfl
    rw [hstep, ih]
    by_cases hs : stop tok = true
    · rw [if_pos hs]
      by_cases ht : t = tok
      · subst ht; simp [hs]
      · simp [List.count_cons, ht, Ne.symm ht]
    · rw [if_neg hs]
      by_cases ht : t = tok
      · subst ht
        have hsf : stop t = false := by revert hs; cases stop t <;> simp
        simp [hsf, List.count_cons]
        omega
      · simp [List.count_cons, ht, Ne.symm ht]

/-- C6: aggregating a token list bumps the count of every non-stopword token
by its number of occurrences (initializing at 1 if absent, since absence is
count 0), never adds a stopword to the table, and aggregating the same token
list twice starting from the empty table yields exactly double the count that
a single aggregation yields, for every token. -/
theorem freq_aggregation (stop : String → Bool) (tokens : List String)
    (t : String) :
    (stop t = true → compute_word_frequencies stop tokens emptyFreq t = 0) ∧
    (stop t = false → ∀ freq : String → Nat,
        compute_word_frequencies stop tokens freq t =
          freq t + List.count t tokens) ∧
    compute_word_frequencies stop tokens
        (compute_word_frequencies stop tokens emptyFreq) t =
      2 * compute_word_frequencies stop tokens emptyFreq t := by
  refine ⟨fun hs => ?_, fun hs freq => ?_, ?_⟩
  · rw [compute_word_frequencies_count, hs]
    rfl
  · rw [compute_word_frequencies_count, hs]
    simp
  · rw [compute_word_frequencies_count, compute_word_frequencies_count]
    cases hs : stop t
    · simp [emptyFreq]
      omega
    · simp [emptyFreq]

/-- C6 (witness): with a stopword set holding only `the` and token list `[a, the, a]`,
aggregation from the cold table gives `the` count 0 and `a` count
`0 + 2`. -/
theorem freq_aggregation_witness :
    compute_word_frequencies stopThe ["a", "the", "a"] emptyFreq "the" = 0 ∧
    compute_word_frequencies stopThe ["a", "the", "a"] emptyFreq "a" =
      emptyFreq "a" + List.count "a" ["a", "the", "a"] :=
  ⟨(freq_aggregation stopThe ["a", "the", "a"] "the").1 rfl,
   (freq_aggregation stopThe ["a", "the", "a"] "a").2.1 rfl emptyFreq⟩

end Crawler

namespace Crawler

/-- C7: when the decode/parse step (`html.fromstring`) fails with either of
the exceptions the code catches (`UnicodeDecodeError` for an undecodable byte
stream, `etree.ParserError` for malformed/empty markup), `extract_next_links`
returns the empty link list and performs no tokenization for that page (the
word-frequency table is untouched).  The embedded extractor is a total
function, so the caught failure cannot propagate to the crawl loop. -/
theorem extract_parse_failure_no_links (ctx : Ctx) (st : CrawlerState)
    (ud : UrlData) (e : ParseErr) (hp : ctx.parse ud.content = .error e) :
    (extract_next_links ctx st ud).2 = [] ∧
    (extract_next_links ctx st ud).1.freq_words = st.freq_words := by
  unfold extract_next_links
  rw [hp]
  exact ⟨rfl, rfl⟩

/-- C7 (witness): a context whose parse step reports malformed markup yields
no links and an untouched frequency table. -/
theorem extract_parse_failure_no_links_witness :
    (extract_next_links failParseCtx initState udExample).2 = [] ∧
    (extract_next_links failParseCtx initState udExample).1.freq_words =
      initState.freq_words :=
  extract_parse_failure_no_links failParseCtx initState udExample
    .parserError rfl

/-- C8 (counterexample): the claim says the validator never propagates an
exception raised while parsing the URL.  But `urlparse(url)` is executed on
crawler.py line 175, before the `try` block, and the `except` clause catches
only `TypeError` — so a `ValueError` raised by `urlparse` (Python raises
`ValueError: Invalid IPv6 URL` for `"http://[::1/p"`) escapes `is_valid`.
In the embedding, a parse-step error is returned, not turned into `False`. -/
theorem valid_propagates_urlparse_error :
    ¬ ∃ b : Bool,
      (is_valid seenNone initState "http://[::1/p"
          (Except.error PyErr.valueError)).2 = Except.ok b := by
  rintro ⟨b, hb⟩
  exact Except.noConfusion hb

/-- C8 (amended): once `urlparse` itself has succeeded, `is_valid` never
propagates an exception: every exception arising during scheme/host/path
inspection (the `TypeError` from testing a `None` hostname) is caught and
yields rejection (`False`); only an error from `urlparse`, which runs outside
the `try` block, escapes. -/
theorem is_valid_total_after_parse (seen : String → Bool) (st : CrawlerState)
    (url : String) (parsed : Parsed) :
    (∃ b : Bool, (is_valid seen st url (.ok parsed)).2 = Except.ok b) ∧
    (parsed.hostname = none →
      (is_valid seen st url (.ok parsed)).2 = Except.ok false) := by
  constructor
  · simp only [is_valid]
    split
    · exact ⟨false, rfl⟩
    · split
      · exact ⟨false, rfl⟩
      · split
        · split
          · exact ⟨false, rfl⟩
          · exact ⟨!(is_trap seen st url parsed).2, rfl⟩
        · exact ⟨false, rfl⟩
  · intro hh
    simp only [is_valid, hh]
    split
    · rfl
    · rfl

/-- C8 (witness): on a URL with no host (`urlparse` succeeds but `hostname`
is `None`), the validator returns `False` rather than letting the
`TypeError` escape. -/
theorem is_valid_total_after_parse_witness :
    (is_valid seenNone initState "http:///p" (.ok parsedNoHost)).2 =
      Except.ok false :=
  (is_valid_total_after_parse seenNone initState "http:///p" parsedNoHost).2 rfl

/-- C9: when the parse step fails and `extract_next_links` returns the empty
link list, it returns before reaching any aggregate update (crawler.py
lines 74-81 precede lines 93-114), so the subdomain counter, both extremal
records, the word-frequency table and the audit (`downloaded`) log keep
exactly their previous values (the trap log too). -/
theorem extract_parse_failure_frame (ctx : Ctx) (st : CrawlerState)
    (ud : UrlData) (e : ParseErr) (hp : ctx.parse ud.content = .error e) :
    (extract_next_links ctx st ud).1.subdomains = st.subdomains ∧
    (extract_next_links ctx st ud).1.max_out_links = st.max_out_links ∧
    (extract_next_links ctx st ud).1.longest_page = st.longest_page ∧
    (extract_next_links ctx st ud).1.freq_words = st.freq_words ∧
    (extract_next_links ctx st ud).1.downloaded = st.downloaded ∧
    (extract_next_links ctx st ud).1.traps = st.traps := by
  unfold extract_next_links
  rw [hp]
  exact ⟨rfl, rfl, rfl, rfl, rfl, rfl⟩

/-- C9 (witness): a context whose parse step reports an undecodable byte
stream leaves every aggregate of the freshly initialized state unchanged. -/
theorem extract_parse_failure_frame_witness :
    (extract_next_links failDecodeCtx initState udRedirect).1.subdomains =
        initState.subdomains ∧
    (extract_next_links failDecodeCtx initState udRedirect).1.max_out_links =
        initState.max_out_links ∧
    (extract_next_links failDecodeCtx initState udRedirect).1.longest_page =
        initState.longest_page ∧
    (extract_next_links failDecodeCtx initState udRedirect).1.freq_words =
        initState.freq_words ∧
    (extract_next_links failDecodeCtx initState udRedirect).1.downloaded =
        initState.downloaded ∧
    (extract_next_links failDecodeCtx initState udRedirect).1.traps =
        initState.traps :=
  extract_parse_failure_frame failDecodeCtx initState udRedirect
    .unicodeDecodeError rfl

/-- C10: a call to `is_valid` never changes the subdomain counter, the two
extremal records, the word-frequency table or the audit (`downloaded`) log;
its only possible aggregate effect is on the trap log, to which it appends
the URL exactly when the call reaches the `is_trap` conjunct (scheme, host
scope and extension all passed) and the trap detector flags the URL. -/
theorem is_valid_frame (seen : String → Bool) (st : CrawlerState)
    (url : String) (pr : Except PyErr Parsed) :
    (is_valid seen st url pr).1.subdomains = st.subdomains ∧
    (is_valid seen st url pr).1.max_out_links = st.max_out_links ∧
    (is_valid seen st url pr).1.longest_page = st.longest_page ∧
    (is_valid seen st url pr).1.freq_words = st.freq_words ∧
    (is_valid seen st url pr).1.downloaded = st.downloaded ∧
    (is_valid seen st url pr).1.traps =
      (if valid_trap_hit seen pr then st.traps ++ [url] else st.traps) := by
  match pr with
  | .error e =>
    simp [is_valid, valid_trap_hit]
  | .ok parsed =>
    simp only [is_valid, valid_trap_hit]
    split
    · rename_i hs
      have hs' : (parsed.scheme == "http" || parsed.scheme == "https") = false := by
        revert hs
        cases parsed.scheme == "http" || parsed.scheme == "https" <;> simp
      simp [hs']
    · rename_i hs
      have hs' : (parsed.scheme == "http" || parsed.scheme == "https") = true := by
        revert hs
        cases parsed.scheme == "http" || parsed.scheme == "https" <;> simp
      simp only [hs']
      split
      · rename_i hh
        simp [hh]
      · rename_i h hh
        split
        · rename_i hc
          split
          · rename_i he
            simp [hc, he]
          · rename_i he
            have he' : hasBadExt parsed.path = false := by
              simpa using he
            by_cases htf : trap_flag seen parsed = true
            · simp [is_trap, htf, hc, he']
            · have htf' : trap_flag seen parsed = false := by
                simpa using htf
              simp [is_trap, htf', hc, he']
        · rename_i hc
          have hc' : containsSub h.data ".ics.uci.edu".data = false := by
            simpa using hc
          simp [hc']

end Crawler
